import Mathlib

/-!
Shallow embedding of the run lifecycle controller in
`src/components/image-transformer.tsx` (the `ImageTransformer` React
component of the flowscale-nextjs-app repository).

The component's React `useState` fields become a `ControllerState`
record; each event handler (`generateImage`, `handleCancel`,
`fetchPastRuns`, `startProgressSimulation`, and the `setInterval`
callback inside the latter) becomes a pure function from state to
state, returning alongside the list of observable effects (network
calls, `alert`s, `console.error`s) it performs.  The outcomes of the
remote FlowscaleAPI calls are passed in as explicit parameters, since
the remote service is an external collaborator.

`generateImage` is `async` with an `await` on `executeWorkflowAsync`;
to express interleavings (timer ticks and cancel clicks during the
in-flight call) it is split at that suspension point into
`generateImage_start` (the synchronous code up to and including the
issuing of the remote call) and `generateImage_resume` (the
continuation running when the remote call settles, through the
`catch`/`finally` blocks).  An `Event`/`step`/`runEvents` layer then
replays arbitrary interleavings of handler invocations.
-/

/-- The `data` field of `FlowscaleResponse` in the source. -/
structure FlowscaleData where
  download_url : String
  generation_status : String
  deriving DecidableEq, Repr

/-- `FlowscaleResponse` from the source: the resolved value of
`flowscale.executeWorkflowAsync`. -/
structure FlowscaleResponse where
  status : String
  runId : String
  data : FlowscaleData
  deriving DecidableEq, Repr

/-- `RunOutput` from the source. -/
structure RunOutput where
  filename : String
  url : String
  deriving DecidableEq, Repr

/-- `Run` from the source (a past run record). -/
structure Run where
  _id : String
  status : String
  outputs : List RunOutput
  deriving DecidableEq, Repr

/-- The `data` field of `RunsResponse` in the source. -/
structure RunsData where
  group_id : String
  count : Nat
  runs : List Run
  deriving DecidableEq, Repr

/-- `RunsResponse` from the source: the resolved value of `flowscale.getRuns`. -/
structure RunsResponse where
  status : String
  data : RunsData
  deriving DecidableEq, Repr

/-- The component's `useState` fields.  `activeTimers` counts the
`setInterval` timers currently alive (each `startProgressSimulation`
call creates one; a timer removes itself when its callback sees
`uploadProgress >= 95`). -/
structure ControllerState where
  inputFile : Option String
  promptText : String
  isLoading : Bool
  uploadProgress : Nat
  outputImageUrl : String
  currentRunId : Option String
  pastRuns : List Run
  activeTimers : Nat
  deriving DecidableEq, Repr

/-- The `useState` initialisers of `ImageTransformer`. -/
def initialState : ControllerState :=
  { inputFile := none
    promptText := ""
    isLoading := false
    uploadProgress := 0
    outputImageUrl := ""
    currentRunId := none
    pastRuns := []
    activeTimers := 0 }

/-- The workflow id read from `NEXT_PUBLIC_FLOWSCALE_WORKFLOW_ID` at
module load; its concrete value is environment configuration, modelled
as a constant. -/
def workflowId : String := "NEXT_PUBLIC_FLOWSCALE_WORKFLOW_ID"

/-- Observable effects of the handlers: the three FlowscaleAPI network
calls, `alert`, and `console.error`. -/
inductive Effect where
  | executeWorkflowCall (wfId : String) (image : String) (prompt : String)
  | cancelRunCall (runId : String)
  | getRunsCall
  | alertMsg (s : String)
  | consoleError (s : String)
  deriving DecidableEq, Repr

/-- Whether an effect is the `flowscale.getRuns` network call. -/
def Effect.isGetRuns : Effect → Bool
  | .getRunsCall => true
  | _ => false

/-- Whether an effect is the `flowscale.cancelRun` network call. -/
def Effect.isCancelRun : Effect → Bool
  | .cancelRunCall _ => true
  | _ => false

/-- Whether an effect is any network call. -/
def Effect.isNetworkCall : Effect → Bool
  | .executeWorkflowCall .. => true
  | .cancelRunCall _ => true
  | .getRunsCall => true
  | _ => false

/-- Outcome of the awaited `flowscale.executeWorkflowAsync` call: it
either resolves with a `FlowscaleResponse` or rejects with an error
value whose `message` field, when it is a string, is carried here
(`none` models a missing or non-string `message`, matching the
source's `typeof error.message === 'string'` guard). -/
inductive RemoteOutcome where
  | resolved (r : FlowscaleResponse)
  | rejected (message : Option String)
  deriving DecidableEq, Repr

/-- Outcome of the awaited `flowscale.getRuns` call. -/
inductive RunsOutcome where
  | resolved (r : RunsResponse)
  | rejected
  deriving DecidableEq, Repr

/-- Outcome of the awaited `flowscale.cancelRun` call. -/
inductive CancelOutcome where
  | resolved
  | rejected
  deriving DecidableEq, Repr

/-- `startProgressSimulation` (source lines 94-105): resets
`uploadProgress` to 0 and installs a new 500ms interval timer.  The
interval handle lives in the closure; nothing outside the callback
ever clears it, which the `activeTimers` count records. -/
def startProgressSimulation (s : ControllerState) : ControllerState :=
  { s with uploadProgress := 0, activeTimers := s.activeTimers + 1 }

/-- The `setInterval` callback inside `startProgressSimulation`: every
500ms, if `prev >= 95` clear this interval and keep the value,
otherwise add 5.  Firing is modelled only while at least one timer is
alive. -/
def progressTick (s : ControllerState) : ControllerState :=
  if s.activeTimers > 0 then
    if s.uploadProgress ≥ 95 then
      { s with activeTimers := s.activeTimers - 1 }
    else
      { s with uploadProgress := s.uploadProgress + 5 }
  else s

/-- `handleCancel` (source lines 112-123): if `currentRunId` is set,
await `flowscale.cancelRun(currentRunId)` and then clear
`isLoading`/`currentRunId`/`uploadProgress`; a rejection of the cancel
call jumps to the `catch`, which only logs, skipping those three state
updates.  With no `currentRunId` the body does nothing. -/
def handleCancel (out : CancelOutcome) (s : ControllerState) :
    ControllerState × List Effect :=
  match s.currentRunId with
  | none => (s, [])
  | some rid =>
    match out with
    | .resolved =>
        ({ s with isLoading := false, currentRunId := none, uploadProgress := 0 },
         [Effect.cancelRunCall rid])
    | .rejected =>
        (s, [Effect.cancelRunCall rid, Effect.consoleError "Error cancelling run:"])

/-- `fetchPastRuns` (source lines 125-132): await `flowscale.getRuns()`
and store `response.data.runs`; on rejection only log. -/
def fetchPastRuns (out : RunsOutcome) (s : ControllerState) :
    ControllerState × List Effect :=
  match out with
  | .resolved r => ({ s with pastRuns := r.data.runs }, [Effect.getRunsCall])
  | .rejected =>
      (s, [Effect.getRunsCall, Effect.consoleError "Error fetching past runs:"])

/-- List-of-characters helper: does `hay` start with `needle`? -/
def charListStartsWith : List Char → List Char → Bool
  | [], _ => true
  | _ :: _, [] => false
  | a :: as, b :: bs => a == b && charListStartsWith as bs

/-- Does the character list contain `needle` as a contiguous sublist? -/
def charListHasSub (needle : List Char) : List Char → Bool
  | [] => needle.isEmpty
  | c :: t => charListStartsWith needle (c :: t) || charListHasSub needle t

/-- JavaScript's `hay.includes(needle)` on strings. -/
def strIncludes (hay needle : String) : Bool :=
  charListHasSub needle.data hay.data

/-- `generateImage`, synchronous prefix (source lines 134-151): the
`!inputFile` guard (alert and early return, nothing else happens),
then `setIsLoading(true)`, `startProgressSimulation()`, and inside the
`try` the clearing of `outputImageUrl` and `uploadProgress` before the
`await flowscale.executeWorkflowAsync(workflowId, inputs)` is issued
with the `image_22068`/`default_value_48043` input slots. -/
def generateImage_start (s : ControllerState) : ControllerState × List Effect :=
  match s.inputFile with
  | none => (s, [Effect.alertMsg "Please select an image first"])
  | some file =>
    let s1 := startProgressSimulation { s with isLoading := true }
    let s2 := { s1 with outputImageUrl := "", uploadProgress := 0 }
    (s2, [Effect.executeWorkflowCall workflowId file s.promptText])

/-- The condition of the `if` on source line 154, packaged over the
outcome: the call resolved with top-level `status === 'success'` and
`data.generation_status === 'success'`; a rejection never satisfies it. -/
def fullSuccessB : RemoteOutcome → Bool
  | .resolved r => r.status == "success" && r.data.generation_status == "success"
  | .rejected _ => false

/-- The alert text chosen by the `catch` block of `generateImage`
(source lines 163-167): the timeout-specific message when
`error.message` is a string containing "timed out", the generic
message otherwise (also when `message` is missing or not a string). -/
def failureAlertText : Option String → String
  | some m =>
    if strIncludes m "timed out" then
      "Image processing took too long to complete. Please try again."
    else
      "Error processing image. Please try again."
  | none => "Error processing image. Please try again."

/-- `generateImage`, continuation after `executeWorkflowAsync` settles
(source lines 151-172).  On resolution: `setCurrentRunId(result.runId)`;
if both statuses are "success", set progress to 100, store the
download url and `await fetchPastRuns()`; otherwise `throw new
Error('Generation failed')`, whose message reaches the same `catch`.
The `catch` logs and alerts with `failureAlertText`.  The `finally`
always clears `isLoading` and `currentRunId`. -/
def generateImage_resume (out : RemoteOutcome) (runsOut : RunsOutcome)
    (s : ControllerState) : ControllerState × List Effect :=
  match out with
  | .resolved r =>
    let s1 := { s with currentRunId := some r.runId }
    if r.status == "success" && r.data.generation_status == "success" then
      let s2 := { s1 with uploadProgress := 100, outputImageUrl := r.data.download_url }
      let p := fetchPastRuns runsOut s2
      ({ p.1 with isLoading := false, currentRunId := none }, p.2)
    else
      ({ s1 with isLoading := false, currentRunId := none },
       [Effect.consoleError "Error processing image:",
        Effect.alertMsg (failureAlertText (some "Generation failed"))])
  | .rejected msg =>
    ({ s with isLoading := false, currentRunId := none },
     [Effect.consoleError "Error processing image:",
      Effect.alertMsg (failureAlertText msg)])

/-- The discrete events that can reach the controller: the user
pressing Transform (runs `generateImage` up to its await), the remote
call settling (runs the continuation, with the `getRuns` refresh
outcome it may need), the user pressing Cancel (runs `handleCancel`
with the outcome of the cancel call it may issue), and one interval
timer firing. -/
inductive Event where
  | submitStart
  | remoteSettle (out : RemoteOutcome) (runsOut : RunsOutcome)
  | cancelClick (out : CancelOutcome)
  | tick
  deriving DecidableEq, Repr

/-- Dispatch one event to the corresponding handler. -/
def step (s : ControllerState) (e : Event) : ControllerState × List Effect :=
  match e with
  | .submitStart => generateImage_start s
  | .remoteSettle out runsOut => generateImage_resume out runsOut s
  | .cancelClick out => handleCancel out s
  | .tick => (progressTick s, [])

/-- Run a sequence of events, accumulating effects in order. -/
def runEvents (s : ControllerState) : List Event → ControllerState × List Effect
  | [] => (s, [])
  | e :: rest =>
    let p := step s e
    let q := runEvents p.1 rest
    (q.1, p.2 ++ q.2)

/-- Events that can occur while the `executeWorkflowAsync` call is in
flight: interval ticks and cancel clicks (the Transform button is
disabled while `isLoading`, and the settle event ends the flight). -/
def flightEvent : Event → Bool
  | .tick => true
  | .cancelClick _ => true
  | _ => false

/-- Iterate the interval callback `n` times. -/
def tickN : Nat → ControllerState → ControllerState
  | 0, s => s
  | n + 1, s => tickN n (progressTick s)

/-- A fully successful remote response, as in the spec's scenario. -/
def okResponse : FlowscaleResponse :=
  { status := "success"
    runId := "run1"
    data := { download_url := "https://x/out.png", generation_status := "success" } }

/-- A resting state with a file selected, ready to submit. -/
def readyState : ControllerState :=
  { initialState with inputFile := some "valid.png", promptText := "a cat" }

/-- A state with an active run id, mid-`AwaitingResult` as the spec
pictures it (the brief window the code actually allows). -/
def activeRunState : ControllerState :=
  { initialState with
    inputFile := some "valid.png"
    isLoading := true
    uploadProgress := 42
    currentRunId := some "run1"
    activeTimers := 1 }

-- Helper lemmas shared by the claim theorems below.

theorem handleCancel_of_none (out : CancelOutcome) (s : ControllerState)
    (h : s.currentRunId = none) : handleCancel out s = (s, []) := by
  unfold handleCancel
  rw [h]

theorem progressTick_currentRunId (s : ControllerState) :
    (progressTick s).currentRunId = s.currentRunId := by
  unfold progressTick
  split
  · split <;> rfl
  · rfl

theorem progressTick_inputFile (s : ControllerState) :
    (progressTick s).inputFile = s.inputFile := by
  unfold progressTick
  split
  · split <;> rfl
  · rfl

theorem generateImage_resume_currentRunId (out : RemoteOutcome)
    (runsOut : RunsOutcome) (s : ControllerState) :
    (generateImage_resume out runsOut s).1.currentRunId = none := by
  cases out with
  | resolved r =>
    cases runsOut <;> simp [generateImage_resume, fetchPastRuns] <;> split <;> rfl
  | rejected msg => rfl

theorem generateImage_resume_isLoading (out : RemoteOutcome)
    (runsOut : RunsOutcome) (s : ControllerState) :
    (generateImage_resume out runsOut s).1.isLoading = false := by
  cases out with
  | resolved r =>
    cases runsOut <;> simp [generateImage_resume, fetchPastRuns] <;> split <;> rfl
  | rejected msg => rfl

theorem generateImage_resume_activeTimers (out : RemoteOutcome)
    (runsOut : RunsOutcome) (s : ControllerState) :
    (generateImage_resume out runsOut s).1.activeTimers = s.activeTimers := by
  cases out with
  | resolved r =>
    cases runsOut <;> simp [generateImage_resume, fetchPastRuns] <;> split <;> rfl
  | rejected msg => rfl

theorem handleCancel_activeTimers (out : CancelOutcome) (s : ControllerState) :
    (handleCancel out s).1.activeTimers = s.activeTimers := by
  unfold handleCancel
  cases h : s.currentRunId with
  | none => rfl
  | some rid => cases out <;> rfl

/-- C6: calling `generateImage` with no input file alerts
"Please select an image first" and returns immediately: the state is
unchanged and no network call (indeed no other effect) is made. -/
theorem generateImage_no_file_noop (s : ControllerState)
    (h : s.inputFile = none) :
    generateImage_start s = (s, [Effect.alertMsg "Please select an image first"]) ∧
    ∀ e ∈ (generateImage_start s).2, e.isNetworkCall = false := by
  unfold generateImage_start
  rw [h]
  refine ⟨rfl, ?_⟩
  intro e he
  simp only [List.mem_singleton] at he
  rw [he]
  rfl

/-- Witness for C6 at the initial state. -/
theorem generateImage_no_file_noop_witness :
    generateImage_start initialState =
      (initialState, [Effect.alertMsg "Please select an image first"]) ∧
    ∀ e ∈ (generateImage_start initialState).2, e.isNetworkCall = false :=
  generateImage_no_file_noop initialState rfl

/-- C7: `handleCancel` with no active run id is a no-op: no state
change and no effects, in particular no `cancelRun` network call. -/
theorem handleCancel_no_active_run_noop (out : CancelOutcome)
    (s : ControllerState) (h : s.currentRunId = none) :
    handleCancel out s = (s, []) :=
  handleCancel_of_none out s h

/-- Witness for C7 at the initial state. -/
theorem handleCancel_no_active_run_noop_witness :
    handleCancel CancelOutcome.resolved initialState = (initialState, []) :=
  handleCancel_no_active_run_noop CancelOutcome.resolved initialState rfl

/-- C3 counterexample: at `activeRunState` (a run active, progress 42,
loading), a rejected `cancelRun` leaves `isLoading` true, the run id
set and the progress untouched — the local active state is NOT
cleared, contradicting the claim that it always is. -/
theorem handleCancel_error_keeps_state_cex :
    (handleCancel CancelOutcome.rejected activeRunState).1.isLoading = true ∧
    (handleCancel CancelOutcome.rejected activeRunState).1.currentRunId = some "run1" ∧
    (handleCancel CancelOutcome.rejected activeRunState).1.uploadProgress = 42 := by
  decide

/-- C3 (amended): when `cancelRun` rejects, `handleCancel` issues the
cancel call and logs the error but changes no state at all; the local
active state (`isLoading := false`, `currentRunId := none`,
`uploadProgress := 0`) is cleared only when `cancelRun` resolves. -/
theorem handleCancel_error_leaves_state_unchanged (s : ControllerState)
    (rid : String) (h : s.currentRunId = some rid) :
    handleCancel CancelOutcome.rejected s =
      (s, [Effect.cancelRunCall rid, Effect.consoleError "Error cancelling run:"]) ∧
    handleCancel CancelOutcome.resolved s =
      ({ s with isLoading := false, currentRunId := none, uploadProgress := 0 },
       [Effect.cancelRunCall rid]) := by
  unfold handleCancel
  rw [h]
  exact ⟨rfl, rfl⟩

/-- Witness for (amended) C3 at `activeRunState`. -/
theorem handleCancel_error_leaves_state_unchanged_witness :
    handleCancel CancelOutcome.rejected activeRunState =
      (activeRunState,
       [Effect.cancelRunCall "run1", Effect.consoleError "Error cancelling run:"]) ∧
    handleCancel CancelOutcome.resolved activeRunState =
      ({ activeRunState with
          isLoading := false
          currentRunId := none
          uploadProgress := 0 },
       [Effect.cancelRunCall "run1"]) :=
  handleCancel_error_leaves_state_unchanged activeRunState "run1" rfl

/-- C1: whenever the remote call does not fully succeed (top-level
status or embedded generation status differs from "success", or the
call rejects), `generateImage`'s continuation ends with `isLoading`
false and `currentRunId` cleared, leaves the output url as it was,
issues no `getRuns` refresh, and surfaces an alert message; being a
total function, it never lets the rejection escape. -/
theorem generateImage_failure_reaches_failed (out : RemoteOutcome)
    (runsOut : RunsOutcome) (s : ControllerState)
    (h : fullSuccessB out = false) :
    (generateImage_resume out runsOut s).1.isLoading = false ∧
    (generateImage_resume out runsOut s).1.currentRunId = none ∧
    (generateImage_resume out runsOut s).1.outputImageUrl = s.outputImageUrl ∧
    (generateImage_resume out runsOut s).2.filter Effect.isGetRuns = [] ∧
    ∃ msg, Effect.alertMsg msg ∈ (generateImage_resume out runsOut s).2 := by
  cases out with
  | resolved r =>
    have h' : (r.status == "success" && r.data.generation_status == "success") = false := h
    refine ⟨generateImage_resume_isLoading _ _ _,
            generateImage_resume_currentRunId _ _ _, ?_, ?_, ?_⟩
    · simp [generateImage_resume, h']
    · simp [generateImage_resume, h', Effect.isGetRuns]
    · exact ⟨failureAlertText (some "Generation failed"), by simp [generateImage_resume, h']⟩
  | rejected msg =>
    refine ⟨rfl, rfl, rfl, rfl, ?_⟩
    exact ⟨failureAlertText msg, by simp [generateImage_resume]⟩

/-- Witness for C1: a rejection with no message, history refresh
outcome irrelevant, at the initial state. -/
theorem generateImage_failure_reaches_failed_witness :
    (generateImage_resume (RemoteOutcome.rejected none) RunsOutcome.rejected
        initialState).1.isLoading = false ∧
    (generateImage_resume (RemoteOutcome.rejected none) RunsOutcome.rejected
        initialState).1.currentRunId = none ∧
    (generateImage_resume (RemoteOutcome.rejected none) RunsOutcome.rejected
        initialState).1.outputImageUrl = "" ∧
    (generateImage_resume (RemoteOutcome.rejected none) RunsOutcome.rejected
        initialState).2.filter Effect.isGetRuns = [] ∧
    ∃ msg, Effect.alertMsg msg ∈
      (generateImage_resume (RemoteOutcome.rejected none) RunsOutcome.rejected
        initialState).2 :=
  generateImage_failure_reaches_failed (RemoteOutcome.rejected none)
    RunsOutcome.rejected initialState rfl

/-- C5: on a fully successful remote resolution, the continuation sets
`uploadProgress` to 100, stores `download_url` as the output image
url, clears `isLoading` and `currentRunId`, and issues exactly one
`getRuns` refresh call. -/
theorem generateImage_success_reaches_succeeded (r : FlowscaleResponse)
    (runsOut : RunsOutcome) (s : ControllerState)
    (h : fullSuccessB (RemoteOutcome.resolved r) = true) :
    (generateImage_resume (RemoteOutcome.resolved r) runsOut s).1.uploadProgress = 100 ∧
    (generateImage_resume (RemoteOutcome.resolved r) runsOut s).1.outputImageUrl =
      r.data.download_url ∧
    (generateImage_resume (RemoteOutcome.resolved r) runsOut s).1.isLoading = false ∧
    (generateImage_resume (RemoteOutcome.resolved r) runsOut s).1.currentRunId = none ∧
    ((generateImage_resume (RemoteOutcome.resolved r) runsOut s).2.filter
        Effect.isGetRuns).length = 1 := by
  have h' : (r.status == "success" && r.data.generation_status == "success") = true := h
  cases runsOut <;>
    simp [generateImage_resume, fetchPastRuns, h', Effect.isGetRuns]

/-- Witness for C5: the spec's scenario response at `readyState`
(after the submit prefix, the fields shown are those the continuation
controls). -/
theorem generateImage_success_reaches_succeeded_witness :
    (generateImage_resume (RemoteOutcome.resolved okResponse) RunsOutcome.rejected
        readyState).1.uploadProgress = 100 ∧
    (generateImage_resume (RemoteOutcome.resolved okResponse) RunsOutcome.rejected
        readyState).1.outputImageUrl = "https://x/out.png" ∧
    (generateImage_resume (RemoteOutcome.resolved okResponse) RunsOutcome.rejected
        readyState).1.isLoading = false ∧
    (generateImage_resume (RemoteOutcome.resolved okResponse) RunsOutcome.rejected
        readyState).1.currentRunId = none ∧
    ((generateImage_resume (RemoteOutcome.resolved okResponse) RunsOutcome.rejected
        readyState).2.filter Effect.isGetRuns).length = 1 :=
  generateImage_success_reaches_succeeded okResponse RunsOutcome.rejected
    readyState (by decide)

/-- C9: a rejection whose message contains "timed out" produces the
timeout-specific alert; any message not containing it produces the
generic alert; the two texts differ. -/
theorem generateImage_timeout_message (s : ControllerState)
    (runsOut : RunsOutcome) (m : String)
    (h : strIncludes m "timed out" = true) :
    generateImage_resume (RemoteOutcome.rejected (some m)) runsOut s =
      ({ s with isLoading := false, currentRunId := none },
       [Effect.consoleError "Error processing image:",
        Effect.alertMsg
          "Image processing took too long to complete. Please try again."]) ∧
    (∀ m' : String, strIncludes m' "timed out" = false →
      generateImage_resume (RemoteOutcome.rejected (some m')) runsOut s =
        ({ s with isLoading := false, currentRunId := none },
         [Effect.consoleError "Error processing image:",
          Effect.alertMsg "Error processing image. Please try again."])) ∧
    ("Image processing took too long to complete. Please try again." ≠
      "Error processing image. Please try again.") := by
  refine ⟨?_, ?_, by decide⟩
  · simp [generateImage_resume, failureAlertText, h]
  · intro m' h'
    simp [generateImage_resume, failureAlertText, h']

/-- Witness for C9: the spec's "Request timed out" message. -/
theorem generateImage_timeout_message_witness :
    generateImage_resume (RemoteOutcome.rejected (some "Request timed out"))
        RunsOutcome.rejected readyState =
      ({ readyState with isLoading := false, currentRunId := none },
       [Effect.consoleError "Error processing image:",
        Effect.alertMsg
          "Image processing took too long to complete. Please try again."]) :=
  (generateImage_timeout_message readyState RunsOutcome.rejected
    "Request timed out" (by decide)).1

-- More helper lemmas for the timer and the in-flight interval.

theorem progressTick_adds_five (u : ControllerState)
    (hu : 0 < u.activeTimers) (hu95 : u.uploadProgress < 95) :
    (progressTick u).uploadProgress = u.uploadProgress + 5 := by
  unfold progressTick
  rw [if_pos hu, if_neg (by omega)]

theorem progressTick_at_cap (t : ControllerState)
    (ht : 0 < t.activeTimers) (hp : 95 ≤ t.uploadProgress) :
    (progressTick t).activeTimers = t.activeTimers - 1 ∧
    (progressTick t).uploadProgress = t.uploadProgress := by
  unfold progressTick
  rw [if_pos ht, if_pos hp]
  exact ⟨rfl, rfl⟩

theorem progressTick_preserves_bound (s : ControllerState)
    (h5 : s.uploadProgress % 5 = 0) (h95 : s.uploadProgress ≤ 95) :
    (progressTick s).uploadProgress % 5 = 0 ∧
    (progressTick s).uploadProgress ≤ 95 := by
  unfold progressTick
  split_ifs with h1 h2
  · exact ⟨h5, h95⟩
  · refine ⟨?_, ?_⟩
    · show (s.uploadProgress + 5) % 5 = 0
      omega
    · show s.uploadProgress + 5 ≤ 95
      omega
  · exact ⟨h5, h95⟩

theorem tickN_bound (n : Nat) : ∀ s : ControllerState,
    s.uploadProgress % 5 = 0 → s.uploadProgress ≤ 95 →
    (tickN n s).uploadProgress ≤ 95 := by
  induction n with
  | zero => intro s _ h95; exact h95
  | succ n ih =>
    intro s h5 h95
    have h := progressTick_preserves_bound s h5 h95
    exact ih (progressTick s) h.1 h.2

theorem generateImage_resume_uploadProgress_of_fail (out : RemoteOutcome)
    (runsOut : RunsOutcome) (t : ControllerState)
    (hfail : fullSuccessB out = false) :
    (generateImage_resume out runsOut t).1.uploadProgress = t.uploadProgress := by
  cases out with
  | resolved r =>
    have h' : (r.status == "success" && r.data.generation_status == "success") = false :=
      hfail
    simp [generateImage_resume, h']
  | rejected msg => rfl

theorem runEvents_flight_currentRunId (es : List Event) :
    ∀ s : ControllerState, s.currentRunId = none →
      (∀ e ∈ es, flightEvent e = true) →
      (runEvents s es).1.currentRunId = none := by
  induction es with
  | nil => intro s h _; exact h
  | cons e rest ih =>
    intro s h hall
    cases e with
    | tick =>
      show (runEvents (step s Event.tick).1 rest).1.currentRunId = none
      exact ih (progressTick s)
        (by rw [progressTick_currentRunId]; exact h)
        (fun e he => hall e (List.mem_cons_of_mem _ he))
    | cancelClick cOut =>
      show (runEvents (step s (Event.cancelClick cOut)).1 rest).1.currentRunId = none
      have hstep : step s (Event.cancelClick cOut) = (s, []) :=
        handleCancel_of_none cOut s h
      rw [hstep]
      exact ih s h (fun e he => hall e (List.mem_cons_of_mem _ he))
    | submitStart =>
      have hc := hall Event.submitStart (List.mem_cons_self _ _)
      simp [flightEvent] at hc
    | remoteSettle o ro =>
      have hc := hall (Event.remoteSettle o ro) (List.mem_cons_self _ _)
      simp [flightEvent] at hc

/-- C2 (code evidence): the full interleaving of the spec's race
scenario, replayed on the code.  From `readyState`, submit; while the
remote call is in flight the user clicks Cancel (its outcome is
irrelevant — `currentRunId` is still null, so `handleCancel` does
nothing and no `cancelRun` call is ever issued); then the remote call
resolves fully successfully.  The late result is applied, not
discarded: the final state shows the output url, progress 100 and
loading cleared — the observable `Succeeded` outcome, not `Cancelled`. -/
theorem cancel_in_flight_late_success_applied :
    (runEvents readyState
      [Event.submitStart, Event.cancelClick CancelOutcome.resolved,
       Event.remoteSettle (RemoteOutcome.resolved okResponse)
         RunsOutcome.rejected]).1.outputImageUrl = "https://x/out.png" ∧
    (runEvents readyState
      [Event.submitStart, Event.cancelClick CancelOutcome.resolved,
       Event.remoteSettle (RemoteOutcome.resolved okResponse)
         RunsOutcome.rejected]).1.uploadProgress = 100 ∧
    (runEvents readyState
      [Event.submitStart, Event.cancelClick CancelOutcome.resolved,
       Event.remoteSettle (RemoteOutcome.resolved okResponse)
         RunsOutcome.rejected]).1.isLoading = false ∧
    (runEvents readyState
      [Event.submitStart, Event.cancelClick CancelOutcome.resolved,
       Event.remoteSettle (RemoteOutcome.resolved okResponse)
         RunsOutcome.rejected]).2.filter Effect.isCancelRun = [] := by
  decide

/-- The controller state right after a submitted run has failed (the
remote call rejected with "network error"): the transition out of
`AwaitingResult` has happened (`isLoading` is false again). -/
def failedRunFinal : ControllerState :=
  (runEvents readyState
    [Event.submitStart,
     Event.remoteSettle (RemoteOutcome.rejected (some "network error"))
       RunsOutcome.rejected]).1

/-- C4 counterexample: after the failure transition out of
`AwaitingResult`, the interval started by `startProgressSimulation` is
still alive (`activeTimers = 1`), and its very next firing mutates
`uploadProgress` from 0 to 5 — the timer was not cancelled at the
transition, contradicting the claim. -/
theorem dangling_timer_after_failure_cex :
    failedRunFinal.isLoading = false ∧
    failedRunFinal.activeTimers = 1 ∧
    failedRunFinal.uploadProgress = 0 ∧
    (progressTick failedRunFinal).uploadProgress = 5 := by
  decide

/-- C4 (amended): no transition out of `AwaitingResult` cancels the
interval — `generateImage`'s continuation and `handleCancel` both
leave the count of live timers unchanged — so a dangling timer keeps
incrementing `uploadProgress` by 5 per firing while it is below 95;
the interval only cancels itself at a firing that observes
`uploadProgress ≥ 95`, which then leaves the value unchanged. -/
theorem timer_not_cancelled_on_transition (t u : ControllerState)
    (out : RemoteOutcome) (runsOut : RunsOutcome) (cOut : CancelOutcome)
    (hp : 95 ≤ t.uploadProgress) (ht : 0 < t.activeTimers)
    (hu95 : u.uploadProgress < 95) (hu : 0 < u.activeTimers) :
    (generateImage_resume out runsOut t).1.activeTimers = t.activeTimers ∧
    (handleCancel cOut t).1.activeTimers = t.activeTimers ∧
    (progressTick u).uploadProgress = u.uploadProgress + 5 ∧
    (progressTick t).activeTimers = t.activeTimers - 1 ∧
    (progressTick t).uploadProgress = t.uploadProgress :=
  ⟨generateImage_resume_activeTimers out runsOut t,
   handleCancel_activeTimers cOut t,
   progressTick_adds_five u hu hu95,
   (progressTick_at_cap t ht hp).1,
   (progressTick_at_cap t ht hp).2⟩

/-- A state whose cosmetic progress has been forced to 100 by a
success while its interval is still alive. -/
def cappedTimerState : ControllerState :=
  { initialState with uploadProgress := 100, activeTimers := 1 }

/-- A state with a live interval and progress still below the cap. -/
def lowTimerState : ControllerState :=
  { initialState with activeTimers := 1 }

/-- Witness for (amended) C4 at concrete states. -/
theorem timer_not_cancelled_on_transition_witness :
    (generateImage_resume (RemoteOutcome.rejected none) RunsOutcome.rejected
        cappedTimerState).1.activeTimers = cappedTimerState.activeTimers ∧
    (handleCancel CancelOutcome.resolved cappedTimerState).1.activeTimers =
      cappedTimerState.activeTimers ∧
    (progressTick lowTimerState).uploadProgress =
      lowTimerState.uploadProgress + 5 ∧
    (progressTick cappedTimerState).activeTimers =
      cappedTimerState.activeTimers - 1 ∧
    (progressTick cappedTimerState).uploadProgress =
      cappedTimerState.uploadProgress :=
  timer_not_cancelled_on_transition cappedTimerState lowTimerState
    (RemoteOutcome.rejected none) RunsOutcome.rejected CancelOutcome.resolved
    (by decide) (by decide) (by decide) (by decide)

/-- C8: the cosmetic ticker started by `generateImage` begins at 0
with a live interval; while the interval is live and below the cap a
firing adds exactly 5; after any number of firings the progress never
exceeds 95; and a non-successful settle never touches the progress, so
only the genuine success transition (C5) reaches 100. -/
theorem ticker_step_and_bound (s u t : ControllerState) (f : String)
    (n : Nat) (out : RemoteOutcome) (runsOut : RunsOutcome)
    (h : s.inputFile = some f)
    (hu : 0 < u.activeTimers) (hu95 : u.uploadProgress < 95)
    (hfail : fullSuccessB out = false) :
    (generateImage_start s).1.uploadProgress = 0 ∧
    0 < (generateImage_start s).1.activeTimers ∧
    (progressTick u).uploadProgress = u.uploadProgress + 5 ∧
    (tickN n (generateImage_start s).1).uploadProgress ≤ 95 ∧
    (generateImage_resume out runsOut t).1.uploadProgress = t.uploadProgress := by
  have hstart : (generateImage_start s).1.uploadProgress = 0 := by
    unfold generateImage_start
    rw [h]
  have htimers : 0 < (generateImage_start s).1.activeTimers := by
    unfold generateImage_start
    rw [h]
    exact Nat.succ_pos _
  refine ⟨hstart, htimers, progressTick_adds_five u hu hu95, ?_,
          generateImage_resume_uploadProgress_of_fail out runsOut t hfail⟩
  exact tickN_bound n _ (by rw [hstart]) (by rw [hstart]; exact Nat.zero_le _)

/-- Witness for C8 at `readyState` with 30 firings. -/
theorem ticker_step_and_bound_witness :
    (generateImage_start readyState).1.uploadProgress = 0 ∧
    0 < (generateImage_start readyState).1.activeTimers ∧
    (progressTick lowTimerState).uploadProgress =
      lowTimerState.uploadProgress + 5 ∧
    (tickN 30 (generateImage_start readyState).1).uploadProgress ≤ 95 ∧
    (generateImage_resume (RemoteOutcome.rejected none) RunsOutcome.rejected
        initialState).1.uploadProgress = initialState.uploadProgress :=
  ticker_step_and_bound readyState lowTimerState initialState "valid.png" 30
    (RemoteOutcome.rejected none) RunsOutcome.rejected rfl
    (by decide) (by decide) rfl

/-- C10: starting a run with a file selected and no current run id,
`currentRunId` stays null through the whole in-flight interval (any
interleaving of interval firings and cancel clicks), so `handleCancel`
invoked during the flight is a no-op issuing no `cancelRun` call; and
when the remote call finally settles, the continuation again ends with
`currentRunId` null (it is assigned only between the resolution and
the `finally`, which resets it). -/
theorem no_run_id_while_in_flight (s : ControllerState) (f : String)
    (es : List Event) (out : RemoteOutcome) (runsOut : RunsOutcome)
    (cOut : CancelOutcome)
    (h : s.inputFile = some f) (h0 : s.currentRunId = none)
    (hes : ∀ e ∈ es, flightEvent e = true) :
    (runEvents (generateImage_start s).1 es).1.currentRunId = none ∧
    handleCancel cOut (runEvents (generateImage_start s).1 es).1 =
      ((runEvents (generateImage_start s).1 es).1, []) ∧
    (generateImage_resume out runsOut
        (runEvents (generateImage_start s).1 es).1).1.currentRunId = none := by
  have hstart : (generateImage_start s).1.currentRunId = none := by
    unfold generateImage_start
    rw [h]
    exact h0
  have h1 := runEvents_flight_currentRunId es (generateImage_start s).1 hstart hes
  exact ⟨h1, handleCancel_of_none cOut _ h1,
         generateImage_resume_currentRunId out runsOut _⟩

/-- Witness for C10: a tick and a cancel click during the flight from
`readyState`. -/
theorem no_run_id_while_in_flight_witness :
    (runEvents (generateImage_start readyState).1
      [Event.tick, Event.cancelClick CancelOutcome.resolved]).1.currentRunId =
      none ∧
    handleCancel CancelOutcome.resolved
      (runEvents (generateImage_start readyState).1
        [Event.tick, Event.cancelClick CancelOutcome.resolved]).1 =
      ((runEvents (generateImage_start readyState).1
        [Event.tick, Event.cancelClick CancelOutcome.resolved]).1, []) ∧
    (generateImage_resume (RemoteOutcome.resolved okResponse) RunsOutcome.rejected
      (runEvents (generateImage_start readyState).1
        [Event.tick, Event.cancelClick CancelOutcome.resolved]).1).1.currentRunId =
      none :=
  no_run_id_while_in_flight readyState "valid.png"
    [Event.tick, Event.cancelClick CancelOutcome.resolved]
    (RemoteOutcome.resolved okResponse) RunsOutcome.rejected
    CancelOutcome.resolved rfl rfl (by decide)
